import Mathlib

/-!
Verification of the ShipWreckedSailors search-and-rescue engine.

The development shallowly embeds the engine of `bayes-extended.py` (whose
`Search` class, `choose*` helpers and `main` loop subsume the near-identical
drafts in `bayes.py` and `code/bayes.py`): area state, coverage simulation,
hit testing, the Bayesian belief revision, and the round dispatch of the
game loop.  Python floats are modelled as exact rationals; the random
draws (per-area effectiveness samples, the two teams' shuffles of the cell
grid, target placement) are passed in as explicit parameters.
-/

namespace ShipWreck

/-- A grid cell, `(x, y)` local coordinates inside a search area. -/
abbrev Cell := ℕ × ℕ

/-- `SA1_CORNERS = (130, 265, 180, 315)` — (UL-X, UL-Y, LR-X, LR-Y). -/
def SA1_CORNERS : ℕ × ℕ × ℕ × ℕ := (130, 265, 180, 315)

/-- `SA2_CORNERS = (80, 255, 130, 305)`. -/
def SA2_CORNERS : ℕ × ℕ × ℕ × ℕ := (80, 255, 130, 305)

/-- `SA3_CORNERS = (105, 205, 155, 255)`. -/
def SA3_CORNERS : ℕ × ℕ × ℕ × ℕ := (105, 205, 155, 255)

/-- Number of rows of the sub-image `self.img[y1:y2, x1:x2]`: `y2 - y1`.
`len(area_array)` in Python is this row count. -/
def cornersRows (c : ℕ × ℕ × ℕ × ℕ) : ℕ := c.2.2.2 - c.2.1

/-- Number of columns of the sub-image: `x2 - x1` (`area_array.shape[1]`). -/
def cornersCols (c : ℕ × ℕ × ℕ × ℕ) : ℕ := c.2.2.1 - c.1

/-- Python `int(q)`: truncation toward zero. -/
def pyInt (q : ℚ) : ℤ := if 0 ≤ q then ⌊q⌋ else -⌊-q⌋

/-- Python `l[:k]` for an integer bound `k`: a nonnegative bound takes the
first `k` elements (all of them when `k ≥ len(l)`); a negative bound counts
from the end, `l[:k] = l[:len(l)+k]`, empty when `len(l)+k ≤ 0`. -/
def pySliceTo {α : Type} (l : List α) (k : ℤ) : List α :=
  if 0 ≤ k then l.take k.toNat else l.take (l.length - (-k).toNat)

/-- `list(itertools.product(local_x_range, local_y_range))` for
`local_x_range = range(w)` (`shape[1]` columns) and
`local_y_range = range(h)` (`shape[0]` rows). -/
def gridCoords (w h : ℕ) : List Cell :=
  (List.range w) ×ˢ (List.range h)

/-- The engine state of the `Search` object: the fields of `Search.__init__`
that carry decision logic (the cv2 image and its sub-arrays are rendering
collaborators; their only engine-visible content is the grid shape, which
enters through `gridCoords`). -/
structure Search where
  area_actual : ℕ
  sailor_actual : Cell
  p1 : ℚ
  p2 : ℚ
  p3 : ℚ
  sep1 : ℚ
  sep2 : ℚ
  sep3 : ℚ
deriving Repr, DecidableEq

/-- `Search.__init__`: priors `(0.2, 0.5, 0.3)`, effectiveness values 0,
`area_actual = 0`, `sailor_actual = [0, 0]`. -/
def Search.init : Search :=
  { area_actual := 0
    sailor_actual := (0, 0)
    p1 := 2/10
    p2 := 5/10
    p3 := 3/10
    sep1 := 0
    sep2 := 0
    sep3 := 0 }

/-- `sailor_final_location`: the target cell is drawn uniformly in the
50×50 grid and the actual area by a triangular draw over {1,2,3}; both
draws are parameters here. -/
def Search.sailor_final_location (s : Search) (cell : Cell) (area : ℕ) : Search :=
  { s with sailor_actual := cell, area_actual := area }

/-- `calc_search_effectiveness`: overwrite the three effectiveness values
with fresh `uniform(0.2, 0.9)` draws, passed in as parameters. -/
def Search.calc_search_effectiveness (s : Search) (e1 e2 e3 : ℚ) : Search :=
  { s with sep1 := e1, sep2 := e2, sep3 := e3 }

/-- The `coords` computation of `conduct_search`: shuffle the grid
(the shuffled list is the parameter) and slice off the first
`int(len(coords) * effectiveness_prob)` cells. -/
def searchedCells (shuffled : List Cell) (e : ℚ) : List Cell :=
  pySliceTo shuffled (pyInt ((shuffled.length : ℚ) * e))

/-- `Search.conduct_search`: returns the threaded (unmodified) state, the
status string and the searched-cell list.  `shuffled` stands for the
`random.shuffle`d cell list of the area passed as `area_array`. -/
def Search.conduct_search (s : Search) (area_num : ℕ) (shuffled : List Cell)
    (effectiveness_prob : ℚ) : Search × String × List Cell :=
  let coords := searchedCells shuffled effectiveness_prob
  let loc_actual := s.sailor_actual
  if area_num = s.area_actual ∧ loc_actual ∈ coords then
    (s, "Found in Area " ++ toString area_num, coords)
  else
    (s, "Not Found", coords)

/-- The denominator of `revise_target_probs`. -/
def Search.denom (s : Search) : ℚ :=
  s.p1 * (1 - s.sep1) + s.p2 * (1 - s.sep2) + s.p3 * (1 - s.sep3)

/-- `revise_target_probs`; Python raises `ZeroDivisionError` when the
denominator is zero, modelled as `none`. -/
def Search.revise_target_probs (s : Search) : Option Search :=
  if s.denom = 0 then none
  else some { s with
    p1 := s.p1 * (1 - s.sep1) / s.denom
    p2 := s.p2 * (1 - s.sep2) / s.denom
    p3 := s.p3 * (1 - s.sep3) / s.denom }

/-- The search-twice choices divide the union size by `len(sa_i)**2`,
the squared row count of the 50×50 sub-image. -/
def saRowsSq : ℕ := cornersRows SA1_CORNERS ^ 2

/-- `chooseOne`: both teams search area 1 with the sampled `sep1`;
`sep1` becomes `len(set(coords_1 + coords_2)) / len(sa1)**2` and the other
two effectiveness values are zeroed.  `sh1`, `sh2` are the two teams'
shuffles. -/
def chooseOne (s : Search) (sh1 sh2 : List Cell) :
    Search × String × List Cell × String × List Cell :=
  let r1 := s.conduct_search 1 sh1 s.sep1
  let r2 := r1.1.conduct_search 1 sh2 r1.1.sep1
  let s2 := { r2.1 with
    sep1 := (((r1.2.2 ++ r2.2.2).dedup.length : ℕ) : ℚ) / (saRowsSq : ℚ)
    sep2 := 0
    sep3 := 0 }
  (s2, r1.2.1, r1.2.2, r2.2.1, r2.2.2)

/-- `chooseTwo`: both teams search area 2. -/
def chooseTwo (s : Search) (sh1 sh2 : List Cell) :
    Search × String × List Cell × String × List Cell :=
  let r1 := s.conduct_search 2 sh1 s.sep2
  let r2 := r1.1.conduct_search 2 sh2 r1.1.sep2
  let s2 := { r2.1 with
    sep1 := 0
    sep2 := (((r1.2.2 ++ r2.2.2).dedup.length : ℕ) : ℚ) / (saRowsSq : ℚ)
    sep3 := 0 }
  (s2, r1.2.1, r1.2.2, r2.2.1, r2.2.2)

/-- `chooseThree`: both teams search area 3. -/
def chooseThree (s : Search) (sh1 sh2 : List Cell) :
    Search × String × List Cell × String × List Cell :=
  let r1 := s.conduct_search 3 sh1 s.sep3
  let r2 := r1.1.conduct_search 3 sh2 r1.1.sep3
  let s2 := { r2.1 with
    sep1 := 0
    sep2 := 0
    sep3 := (((r1.2.2 ++ r2.2.2).dedup.length : ℕ) : ℚ) / (saRowsSq : ℚ) }
  (s2, r1.2.1, r1.2.2, r2.2.1, r2.2.2)

/-- `chooseFour`: one team each in areas 1 and 2; `sep3` zeroed. -/
def chooseFour (s : Search) (sh1 sh2 : List Cell) :
    Search × String × List Cell × String × List Cell :=
  let r1 := s.conduct_search 1 sh1 s.sep1
  let r2 := r1.1.conduct_search 2 sh2 r1.1.sep2
  let s2 := { r2.1 with sep3 := 0 }
  (s2, r1.2.1, r1.2.2, r2.2.1, r2.2.2)

/-- `chooseFive`: one team each in areas 1 and 3; `sep2` zeroed. -/
def chooseFive (s : Search) (sh1 sh2 : List Cell) :
    Search × String × List Cell × String × List Cell :=
  let r1 := s.conduct_search 1 sh1 s.sep1
  let r2 := r1.1.conduct_search 3 sh2 r1.1.sep3
  let s2 := { r2.1 with sep2 := 0 }
  (s2, r1.2.1, r1.2.2, r2.2.1, r2.2.2)

/-- `chooseSix`: one team each in areas 2 and 3; `sep1` zeroed. -/
def chooseSix (s : Search) (sh1 sh2 : List Cell) :
    Search × String × List Cell × String × List Cell :=
  let r1 := s.conduct_search 2 sh1 s.sep2
  let r2 := r1.1.conduct_search 3 sh2 r1.1.sep3
  let s2 := { r2.1 with sep1 := 0 }
  (s2, r1.2.1, r1.2.2, r2.2.1, r2.2.2)

/-- The game-loop state of `main`: the `Search` object, `search_num` and the
hurricane `search_limit`. -/
structure GameState where
  app : Search
  search_num : ℕ
  search_limit : ℕ
deriving Repr, DecidableEq

/-- Result of one iteration of the `while True` loop of `main`. -/
inductive StepResult where
  | quit : StepResult
  | restart : StepResult
  | invalidRetry : GameState → StepResult
  | continued : GameState → StepResult
  | exhausted : GameState → StepResult
  | foundEnd : GameState → StepResult
  | divByZero : StepResult
deriving Repr, DecidableEq

/-- Dispatch of a search choice "1"–"6" through `choiceDict`; `none` for a
string outside the dictionary (choices "0" and "7" are handled by `dispatch`). -/
def runChoice (s : Search) (choice : String) (sh1 sh2 : List Cell) :
    Option (Search × String × List Cell × String × List Cell) :=
  if choice = "1" then some (chooseOne s sh1 sh2)
  else if choice = "2" then some (chooseTwo s sh1 sh2)
  else if choice = "3" then some (chooseThree s sh1 sh2)
  else if choice = "4" then some (chooseFour s sh1 sh2)
  else if choice = "5" then some (chooseFive s sh1 sh2)
  else if choice = "6" then some (chooseSix s sh1 sh2)
  else none

/-- The body of `main`'s loop from the point the player's choice is read
(the state already holds this round's sampled effectiveness values):
"0" quits, "7" restarts `main`, an unknown string prints the invalid-choice
message and `continue`s with the state untouched; a search choice runs its
helper, then `revise_target_probs` unconditionally, then tests the two
status strings: both "Not Found" increments `search_num` (breaking on the
hurricane limit), otherwise the game ends in the found branch. -/
def dispatch (g : GameState) (choice : String) (sh1 sh2 : List Cell) : StepResult :=
  if choice = "0" then .quit
  else if choice = "7" then .restart
  else
    match runChoice g.app choice sh1 sh2 with
    | none => .invalidRetry g
    | some r =>
      match r.1.revise_target_probs with
      | none => .divByZero
      | some app2 =>
        if r.2.1 = "Not Found" ∧ r.2.2.2.1 = "Not Found" then
          if g.search_num + 1 = g.search_limit then
            .exhausted { g with app := app2, search_num := g.search_num + 1 }
          else .continued { g with app := app2, search_num := g.search_num + 1 }
        else .foundEnd { g with app := app2 }

/-- One full iteration of `main`'s loop: `calc_search_effectiveness` runs
first (the three uniform draws are parameters), then the choice is
dispatched. -/
def mainStep (g : GameState) (e1 e2 e3 : ℚ) (choice : String)
    (sh1 sh2 : List Cell) : StepResult :=
  dispatch { g with app := g.app.calc_search_effectiveness e1 e2 e3 } choice sh1 sh2

/-- Sum of the three priors. -/
def pSum (s : Search) : ℚ := s.p1 + s.p2 + s.p3

/-- All three effectiveness values lie in `[0, 1]`. -/
def sepsIn01 (s : Search) : Prop :=
  0 ≤ s.sep1 ∧ s.sep1 ≤ 1 ∧ 0 ≤ s.sep2 ∧ s.sep2 ≤ 1 ∧ 0 ≤ s.sep3 ∧ s.sep3 ≤ 1

instance (s : Search) : Decidable (sepsIn01 s) := by
  unfold sepsIn01; infer_instance

/-- The priors of a `foundEnd` step, `none` for every other step kind. -/
def foundPriors : StepResult → Option (ℚ × ℚ × ℚ)
  | .foundEnd g => some (g.app.p1, g.app.p2, g.app.p3)
  | _ => none

/-- A concrete round-start state: fresh session, target in area 1 at local
cell (0,0), counter 0, hurricane limit 5. -/
def foundRoundStart : GameState :=
  ⟨{ Search.init with area_actual := 1 }, 0, 5⟩

/-- The state `foundRoundStart` reaches when the player sends both teams to
area 1 with sampled effectiveness 1/2 and identity shuffles: both teams
find the sailor, and the priors have nonetheless been revised once more
(observed coverage 1250/2500 = 1/2, denom 0.9). -/
def foundRoundEnd : GameState :=
  ⟨{ Search.init with
      area_actual := 1
      p1 := 1/9
      p2 := 5/9
      p3 := 1/3
      sep1 := 1/2
      sep2 := 0
      sep3 := 0 }, 0, 5⟩

/-! ### Basic lemmas about the Python helpers and the cell grid -/

theorem pyInt_of_nonneg {q : ℚ} (h : 0 ≤ q) : pyInt q = ⌊q⌋ := by
  simp [pyInt, h]

theorem pySliceTo_of_nonneg {α : Type} (l : List α) {k : ℤ} (h : 0 ≤ k) :
    pySliceTo l k = l.take k.toNat := by
  simp [pySliceTo, h]

theorem pySliceTo_eq_take {α : Type} (l : List α) (k : ℤ) :
    ∃ m : ℕ, pySliceTo l k = l.take m := by
  unfold pySliceTo
  split
  · exact ⟨k.toNat, rfl⟩
  · exact ⟨l.length - (-k).toNat, rfl⟩

theorem searchedCells_of_nonneg (sh : List Cell) {e : ℚ} (h : 0 ≤ e) :
    searchedCells sh e = sh.take (⌊(sh.length : ℚ) * e⌋).toNat := by
  unfold searchedCells
  rw [pyInt_of_nonneg (mul_nonneg (by positivity) h),
    pySliceTo_of_nonneg _ (Int.floor_nonneg.mpr (mul_nonneg (by positivity) h))]

theorem gridCoords_length (w h : ℕ) : (gridCoords w h).length = w * h := by
  simp [gridCoords, List.length_product]

theorem mem_gridCoords {w h : ℕ} {c : Cell} :
    c ∈ gridCoords w h ↔ c.1 < w ∧ c.2 < h := by
  obtain ⟨x, y⟩ := c
  simp [gridCoords, List.mem_product]

theorem gridCoords_nodup (w h : ℕ) : (gridCoords w h).Nodup :=
  (List.nodup_range w).product (List.nodup_range h)

theorem searchedCells_length {sh : List Cell} {e : ℚ} (h0 : 0 ≤ e) (h1 : e ≤ 1) :
    (searchedCells sh e).length = (⌊(sh.length : ℚ) * e⌋).toNat := by
  rw [searchedCells_of_nonneg sh h0, List.length_take]
  have hfl : ⌊(sh.length : ℚ) * e⌋ ≤ (sh.length : ℤ) := by
    calc ⌊(sh.length : ℚ) * e⌋ ≤ ⌊(sh.length : ℚ)⌋ :=
          Int.floor_le_floor (mul_le_of_le_one_right (by positivity) h1)
    _ = (sh.length : ℤ) := Int.floor_natCast _
  omega

theorem searchedCells_zero (sh : List Cell) : searchedCells sh 0 = [] := by
  simp [searchedCells, pyInt, pySliceTo]

theorem searchedCells_full (sh : List Cell) {e : ℚ} (h1 : 1 ≤ e) :
    searchedCells sh e = sh := by
  have h0 : (0 : ℚ) ≤ e := le_trans zero_le_one h1
  rw [searchedCells_of_nonneg sh h0]
  apply List.take_of_length_le
  have hfl : (sh.length : ℤ) ≤ ⌊(sh.length : ℚ) * e⌋ := by
    calc (sh.length : ℤ) = ⌊(sh.length : ℚ)⌋ := (Int.floor_natCast _).symm
    _ ≤ ⌊(sh.length : ℚ) * e⌋ :=
          Int.floor_le_floor (le_mul_of_one_le_right (by positivity) h1)
  omega

theorem searchedCells_sublist (sh : List Cell) (e : ℚ) :
    (searchedCells sh e).Sublist sh := by
  obtain ⟨m, hm⟩ := pySliceTo_eq_take sh (pyInt ((sh.length : ℚ) * e))
  rw [searchedCells, hm]
  exact List.take_sublist _ _

theorem searchedCells_length_le (sh : List Cell) (e : ℚ) :
    (searchedCells sh e).length ≤ sh.length :=
  (searchedCells_sublist sh e).length_le

theorem searchedCells_subset (sh : List Cell) (e : ℚ) :
    searchedCells sh e ⊆ sh :=
  (searchedCells_sublist sh e).subset

theorem found_string_ne (a : ℕ) : ("Found in Area " ++ toString a) ≠ "Not Found" := by
  intro hcon
  have hlen := congrArg String.length hcon
  rw [String.length_append] at hlen
  have h14 : ("Found in Area " : String).length = 14 := by decide
  have h9 : ("Not Found" : String).length = 9 := by decide
  omega

theorem conduct_search_coords (s : Search) (a : ℕ) (sh : List Cell) (e : ℚ) :
    (s.conduct_search a sh e).2.2 = searchedCells sh e := by
  simp only [Search.conduct_search]
  split <;> rfl

theorem conduct_search_fst (s : Search) (a : ℕ) (sh : List Cell) (e : ℚ) :
    (s.conduct_search a sh e).1 = s := by
  simp only [Search.conduct_search]
  split <;> rfl

theorem conduct_search_status (s : Search) (a : ℕ) (sh : List Cell) (e : ℚ) :
    (s.conduct_search a sh e).2.1 =
      if a = s.area_actual ∧ s.sailor_actual ∈ searchedCells sh e
      then "Found in Area " ++ toString a else "Not Found" := by
  simp only [Search.conduct_search]
  split <;> rfl

/-! ### Claim theorems -/

/-- C3: `conduct_search` returns a Found result (a status other than
"Not Found") iff the queried area number equals the actual area and the
target cell is a member of the searched list; for any other area number the
result is "Not Found" regardless of the searched list's contents. -/
theorem conduct_search_found_iff (s : Search) (area_num : ℕ) (shuffled : List Cell)
    (e : ℚ) :
    ((s.conduct_search area_num shuffled e).2.1 ≠ "Not Found" ↔
      area_num = s.area_actual ∧
        s.sailor_actual ∈ (s.conduct_search area_num shuffled e).2.2) ∧
    (area_num ≠ s.area_actual →
      (s.conduct_search area_num shuffled e).2.1 = "Not Found") := by
  rw [conduct_search_status, conduct_search_coords]
  by_cases hcond : area_num = s.area_actual ∧ s.sailor_actual ∈ searchedCells shuffled e
  · rw [if_pos hcond]
    exact ⟨⟨fun _ => hcond, fun _ => found_string_ne area_num⟩,
      fun hne => absurd hcond.1 hne⟩
  · rw [if_neg hcond]
    exact ⟨⟨fun hne => absurd rfl hne, fun hc => absurd hc hcond⟩, fun _ => rfl⟩

/-- C3 witness: at a concrete input whose area number differs from the
actual area, the status is "Not Found". -/
theorem conduct_search_found_iff_witness :
    (5 : ℕ) ≠ Search.init.area_actual ∧
      (Search.init.conduct_search 5 (gridCoords 2 2) 1).2.1 = "Not Found" :=
  ⟨by decide, (conduct_search_found_iff Search.init 5 (gridCoords 2 2) 1).2 (by decide)⟩

/-- C4: for a shuffle of the w × h grid and effectiveness `e ∈ [0,1]`, the
searched list returned by `conduct_search` has exactly `⌊w*h*e⌋` cells;
`e = 1` yields all `w*h` cells, `e = 0` yields the empty list, and the
searched-list size is monotone non-decreasing in `e`. -/
theorem conduct_search_coverage_size (s : Search) (a w h : ℕ) (sh : List Cell)
    (e : ℚ) (hperm : sh.Perm (gridCoords w h)) (h0 : 0 ≤ e) (h1 : e ≤ 1) :
    (s.conduct_search a sh e).2.2.length = (⌊((w * h : ℕ) : ℚ) * e⌋).toNat ∧
    (e = 1 → (s.conduct_search a sh e).2.2.length = w * h) ∧
    (e = 0 → (s.conduct_search a sh e).2.2 = []) ∧
    (∀ e' : ℚ, e ≤ e' → e' ≤ 1 →
      (s.conduct_search a sh e).2.2.length ≤ (s.conduct_search a sh e').2.2.length) := by
  have hlen : sh.length = w * h := by
    rw [hperm.length_eq, gridCoords_length]
  refine ⟨?_, ?_, ?_, ?_⟩
  · rw [conduct_search_coords, searchedCells_length h0 h1, hlen]
  · rintro rfl
    rw [conduct_search_coords, searchedCells_full sh le_rfl, hlen]
  · rintro rfl
    rw [conduct_search_coords, searchedCells_zero]
  · intro e' hee' he'
    rw [conduct_search_coords, conduct_search_coords,
      searchedCells_length h0 h1, searchedCells_length (le_trans h0 hee') he']
    have : ⌊(sh.length : ℚ) * e⌋ ≤ ⌊(sh.length : ℚ) * e'⌋ :=
      Int.floor_le_floor (mul_le_mul_of_nonneg_left hee' (by positivity))
    omega

/-- C4 witness: concrete instance on the 2 × 2 grid with `e = 1/2`. -/
theorem conduct_search_coverage_size_witness :
    (Search.init.conduct_search 1 (gridCoords 2 2) (1/2)).2.2.length =
      (⌊((2 * 2 : ℕ) : ℚ) * (1/2)⌋).toNat :=
  (conduct_search_coverage_size Search.init 1 2 2 (gridCoords 2 2) (1/2)
    (List.Perm.refl _) (by norm_num) (by norm_num)).1

/-- C6 counterexample: `conduct_search` does not clamp effectiveness to
[0,1]: at `e = -1/2` on a shuffle of the 50 × 50 grid the searched list is
NOT empty (Python's negative slice bound counts back from the end of the
list), contradicting "e at or below 0 yields the empty list". -/
theorem conduct_search_no_clamp_cex :
    (-(1/2) : ℚ) ≤ 0 ∧
      (Search.init.conduct_search 1 (gridCoords 50 50) (-(1/2))).2.2 ≠ [] := by
  refine ⟨by norm_num, ?_⟩
  rw [conduct_search_coords]
  have hlen : (gridCoords 50 50).length = 2500 := by rw [gridCoords_length]
  have hq : ((gridCoords 50 50).length : ℚ) * (-(1/2)) = -1250 := by
    rw [hlen]; norm_num
  have hk : pyInt ((gridCoords 50 50).length * (-(1/2)) : ℚ) = -1250 := by
    rw [hq]
    unfold pyInt
    rw [if_neg (by norm_num)]
    norm_num
  unfold searchedCells
  rw [hk]
  unfold pySliceTo
  rw [if_neg (by norm_num)]
  apply List.length_pos.mp
  rw [List.length_take, hlen]
  norm_num

/-- C6 amended: `conduct_search` applies no clamping, but the Python slice
semantics are total (never over- or under-index): `e ≥ 1` yields the full
shuffled list, `e = 0` yields the empty list, and the searched list always
has at most the grid's cells, drawn from the shuffled list; a negative `e`
may however yield a non-empty proper slice. -/
theorem conduct_search_slice_total (s : Search) (a : ℕ) (sh : List Cell) (e : ℚ) :
    (1 ≤ e → (s.conduct_search a sh e).2.2 = sh) ∧
    (e = 0 → (s.conduct_search a sh e).2.2 = []) ∧
    (s.conduct_search a sh e).2.2.length ≤ sh.length ∧
    (∀ c ∈ (s.conduct_search a sh e).2.2, c ∈ sh) := by
  rw [conduct_search_coords]
  exact ⟨fun h1 => searchedCells_full sh h1,
    fun h0 => h0 ▸ searchedCells_zero sh,
    searchedCells_length_le sh e,
    fun c hc => searchedCells_subset sh e hc⟩

/-- C6 amended witness: at `e = 1` the searched list is the full shuffle. -/
theorem conduct_search_slice_total_witness :
    (Search.init.conduct_search 1 (gridCoords 2 2) 1).2.2 = gridCoords 2 2 :=
  (conduct_search_slice_total Search.init 1 (gridCoords 2 2) 1).1 le_rfl

/-- C10: `conduct_search` mutates no field of the `Search` object: the
threaded state is returned exactly as passed — priors, effectiveness
values, actual area and target location are all unchanged; only the status
string and the searched list are produced. -/
theorem conduct_search_frame (s : Search) (a : ℕ) (sh : List Cell) (e : ℚ) :
    (s.conduct_search a sh e).1 = s ∧
    (s.conduct_search a sh e).1.p1 = s.p1 ∧
    (s.conduct_search a sh e).1.p2 = s.p2 ∧
    (s.conduct_search a sh e).1.p3 = s.p3 ∧
    (s.conduct_search a sh e).1.sep1 = s.sep1 ∧
    (s.conduct_search a sh e).1.sep2 = s.sep2 ∧
    (s.conduct_search a sh e).1.sep3 = s.sep3 ∧
    (s.conduct_search a sh e).1.area_actual = s.area_actual ∧
    (s.conduct_search a sh e).1.sailor_actual = s.sailor_actual := by
  have hfr := conduct_search_fst s a sh e
  exact ⟨hfr, by rw [hfr], by rw [hfr], by rw [hfr], by rw [hfr], by rw [hfr],
    by rw [hfr], by rw [hfr], by rw [hfr]⟩

/-- C1: `revise_target_probs` replaces each prior `pi` by
`pi*(1-ei)/denom` whenever the denominator is nonzero; in particular the
priors `(0.2, 0.5, 0.3)` with `e2 = 0.6`, `e1 = e3 = 0` become
`(0.2/0.7, 0.2/0.7, 0.3/0.7) = (2/7, 2/7, 3/7)`. -/
theorem revise_target_probs_formula :
    (∀ s : Search, s.denom ≠ 0 →
      s.revise_target_probs = some { s with
        p1 := s.p1 * (1 - s.sep1) / s.denom
        p2 := s.p2 * (1 - s.sep2) / s.denom
        p3 := s.p3 * (1 - s.sep3) / s.denom }) ∧
    ({ Search.init with sep2 := 3/5 : Search }.revise_target_probs =
      some { Search.init with sep2 := 3/5, p1 := 2/7, p2 := 2/7, p3 := 3/7 }) := by
  constructor
  · intro s hden
    rw [Search.revise_target_probs, if_neg hden]
  · rw [Search.revise_target_probs,
      if_neg (by norm_num [Search.denom, Search.init])]
    simp only [Search.init, Search.denom, Option.some.injEq, Search.mk.injEq]
    norm_num

/-- C1 witness: the general formula applied at the freshly constructed
state, whose denominator `0.2+0.5+0.3 = 1` is nonzero. -/
theorem revise_target_probs_formula_witness :
    Search.init.denom ≠ 0 ∧
      Search.init.revise_target_probs = some { Search.init with
        p1 := Search.init.p1 * (1 - Search.init.sep1) / Search.init.denom
        p2 := Search.init.p2 * (1 - Search.init.sep2) / Search.init.denom
        p3 := Search.init.p3 * (1 - Search.init.sep3) / Search.init.denom } :=
  ⟨by norm_num [Search.denom, Search.init],
    revise_target_probs_formula.1 Search.init
      (by norm_num [Search.denom, Search.init])⟩

/-- C2: the three priors sum to exactly 1 after construction, and every
successful `revise_target_probs` call (nonzero denominator, effectiveness
values in [0,1]) preserves the sum exactly — in the exact rational model
the sum is 1 precisely, hence within any floating tolerance such as 1e-9. -/
theorem priors_sum_one :
    pSum Search.init = 1 ∧
    ∀ s s' : Search, pSum s = 1 → sepsIn01 s →
      s.revise_target_probs = some s' → pSum s' = 1 := by
  constructor
  · norm_num [pSum, Search.init]
  · intro s s' _ _ hrev
    rw [Search.revise_target_probs] at hrev
    by_cases hden : s.denom = 0
    · rw [if_pos hden] at hrev
      exact absurd hrev (by simp)
    · rw [if_neg hden] at hrev
      have hs' := Option.some.inj hrev
      rw [← hs']
      simp only [pSum]
      rw [div_add_div_same, div_add_div_same,
        show s.p1 * (1 - s.sep1) + s.p2 * (1 - s.sep2) + s.p3 * (1 - s.sep3) =
          s.denom from rfl]
      exact div_self hden

/-- C2 witness: a concrete revision (sep1 = 1/2 after a two-team search of
area 1) keeps the priors summing to 1. -/
theorem priors_sum_one_witness :
    pSum { Search.init with sep1 := 1/2 } = 1 ∧
      ({ Search.init with sep1 := 1/2 : Search }.revise_target_probs =
        some { Search.init with sep1 := 1/2, p1 := 1/9, p2 := 5/9, p3 := 1/3 }) ∧
      pSum { Search.init with sep1 := 1/2, p1 := 1/9, p2 := 5/9, p3 := 1/3 } = 1 := by
  have hrev : ({ Search.init with sep1 := 1/2 : Search }.revise_target_probs =
      some { Search.init with sep1 := 1/2, p1 := 1/9, p2 := 5/9, p3 := 1/3 }) := by
    rw [Search.revise_target_probs,
      if_neg (by norm_num [Search.denom, Search.init])]
    simp only [Search.init, Search.denom, Option.some.injEq, Search.mk.injEq]
    norm_num
  refine ⟨by norm_num [pSum, Search.init], hrev, ?_⟩
  exact priors_sum_one.2 _ _ (by norm_num [pSum, Search.init])
    (by norm_num [sepsIn01, Search.init]) hrev

theorem dedup_append_card (l1 l2 : List Cell) :
    (l1 ++ l2).dedup.length = (l1.toFinset ∪ l2.toFinset).card := by
  rw [← List.card_toFinset, List.toFinset_append]

theorem saRowsSq_eq : saRowsSq = 50 * 50 := by decide

/-- C7: in each search-one-area-twice choice the chosen area's
effectiveness becomes the size of the union of the two teams' searched
lists divided by the area's total cell count (50·50; the code's
`len(sa)**2` equals it since the sub-images are square), and the two
non-chosen areas' effectiveness values are 0, before belief revision runs. -/
theorem choose_twice_observed_effectiveness (s : Search) (sh1 sh2 : List Cell) :
    ((chooseOne s sh1 sh2).1.sep1 =
        ((((chooseOne s sh1 sh2).2.2.1.toFinset ∪
            (chooseOne s sh1 sh2).2.2.2.2.toFinset).card : ℕ) : ℚ) /
          ((50 * 50 : ℕ) : ℚ) ∧
      (chooseOne s sh1 sh2).1.sep2 = 0 ∧ (chooseOne s sh1 sh2).1.sep3 = 0) ∧
    ((chooseTwo s sh1 sh2).1.sep2 =
        ((((chooseTwo s sh1 sh2).2.2.1.toFinset ∪
            (chooseTwo s sh1 sh2).2.2.2.2.toFinset).card : ℕ) : ℚ) /
          ((50 * 50 : ℕ) : ℚ) ∧
      (chooseTwo s sh1 sh2).1.sep1 = 0 ∧ (chooseTwo s sh1 sh2).1.sep3 = 0) ∧
    ((chooseThree s sh1 sh2).1.sep3 =
        ((((chooseThree s sh1 sh2).2.2.1.toFinset ∪
            (chooseThree s sh1 sh2).2.2.2.2.toFinset).card : ℕ) : ℚ) /
          ((50 * 50 : ℕ) : ℚ) ∧
      (chooseThree s sh1 sh2).1.sep1 = 0 ∧ (chooseThree s sh1 sh2).1.sep2 = 0) := by
  refine ⟨⟨?_, rfl, rfl⟩, ⟨?_, rfl, rfl⟩, ⟨?_, rfl, rfl⟩⟩ <;>
    simp only [chooseOne, chooseTwo, chooseThree] <;>
    rw [← dedup_append_card, saRowsSq_eq]

theorem observed_sep_bound (c1 c2 : List Cell) (hc1 : c1 ⊆ gridCoords 50 50)
    (hc2 : c2 ⊆ gridCoords 50 50) :
    0 ≤ (((c1 ++ c2).dedup.length : ℕ) : ℚ) / (saRowsSq : ℚ) ∧
      (((c1 ++ c2).dedup.length : ℕ) : ℚ) / (saRowsSq : ℚ) ≤ 1 := by
  have hcard : (c1 ++ c2).dedup.length ≤ 2500 := by
    rw [dedup_append_card]
    have hsub : c1.toFinset ∪ c2.toFinset ⊆ (gridCoords 50 50).toFinset := by
      intro x hx
      rcases Finset.mem_union.mp hx with hx1 | hx2
      · exact List.mem_toFinset.mpr (hc1 (List.mem_toFinset.mp hx1))
      · exact List.mem_toFinset.mpr (hc2 (List.mem_toFinset.mp hx2))
    have hle := Finset.card_le_card hsub
    rwa [List.toFinset_card_of_nodup (gridCoords_nodup 50 50),
      gridCoords_length] at hle
  have hsq : ((saRowsSq : ℕ) : ℚ) = 2500 := by
    rw [saRowsSq_eq]; norm_num
  constructor
  · positivity
  · rw [hsq, div_le_one (by norm_num)]
    exact_mod_cast hcard

theorem choose_pair_bound (x y : Search) (a1 a2 : ℕ) (sh1 sh2 : List Cell)
    (e1 e2 : ℚ) (hp1 : sh1.Perm (gridCoords 50 50))
    (hp2 : sh2.Perm (gridCoords 50 50)) :
    0 ≤ ((((x.conduct_search a1 sh1 e1).2.2 ++
        (y.conduct_search a2 sh2 e2).2.2).dedup.length : ℕ) : ℚ) / (saRowsSq : ℚ) ∧
      ((((x.conduct_search a1 sh1 e1).2.2 ++
        (y.conduct_search a2 sh2 e2).2.2).dedup.length : ℕ) : ℚ) / (saRowsSq : ℚ) ≤ 1 := by
  rw [conduct_search_coords, conduct_search_coords]
  exact observed_sep_bound _ _
    (fun c hc => hp1.subset (searchedCells_subset _ _ hc))
    (fun c hc => hp2.subset (searchedCells_subset _ _ hc))

/-- C9: every engine operation keeps the three effectiveness values in
[0,1]: construction zeroes them; sampling draws from [0.2, 0.9];
`conduct_search` leaves them untouched; the two-team choices set the chosen
area to |union| / 2500 ≤ 1 (both searched lists are drawn from the 50×50
grid) and zero the others; the one-team choices zero the unsearched area;
revision leaves them untouched. -/
theorem seps_unit_interval :
    sepsIn01 Search.init ∧
    (∀ (s : Search) (e1 e2 e3 : ℚ), 1/5 ≤ e1 → e1 ≤ 9/10 → 1/5 ≤ e2 →
      e2 ≤ 9/10 → 1/5 ≤ e3 → e3 ≤ 9/10 →
      sepsIn01 (s.calc_search_effectiveness e1 e2 e3)) ∧
    (∀ (s : Search) (a : ℕ) (sh : List Cell) (e : ℚ), sepsIn01 s →
      sepsIn01 (s.conduct_search a sh e).1) ∧
    (∀ (s : Search) (sh1 sh2 : List Cell), sh1.Perm (gridCoords 50 50) →
      sh2.Perm (gridCoords 50 50) →
      sepsIn01 (chooseOne s sh1 sh2).1 ∧ sepsIn01 (chooseTwo s sh1 sh2).1 ∧
        sepsIn01 (chooseThree s sh1 sh2).1) ∧
    (∀ (s : Search) (sh1 sh2 : List Cell), sepsIn01 s →
      sepsIn01 (chooseFour s sh1 sh2).1 ∧ sepsIn01 (chooseFive s sh1 sh2).1 ∧
        sepsIn01 (chooseSix s sh1 sh2).1) ∧
    (∀ s s' : Search, sepsIn01 s → s.revise_target_probs = some s' →
      sepsIn01 s') := by
  refine ⟨?_, ?_, ?_, ?_, ?_, ?_⟩
  · exact ⟨le_refl 0, zero_le_one, le_refl 0, zero_le_one, le_refl 0, zero_le_one⟩
  · intro s e1 e2 e3 h1a h1b h2a h2b h3a h3b
    unfold Search.calc_search_effectiveness sepsIn01
    dsimp only
    refine ⟨by linarith, by linarith, by linarith, by linarith, by linarith,
      by linarith⟩
  · intro s a sh e hs
    rwa [conduct_search_fst]
  · intro s sh1 sh2 hp1 hp2
    refine ⟨?_, ?_, ?_⟩
    · unfold chooseOne
      dsimp only
      have hb := choose_pair_bound s (s.conduct_search 1 sh1 s.sep1).1 1 1 sh1 sh2
        s.sep1 ((s.conduct_search 1 sh1 s.sep1).1.sep1) hp1 hp2
      exact ⟨hb.1, hb.2, le_refl 0, zero_le_one, le_refl 0, zero_le_one⟩
    · unfold chooseTwo
      dsimp only
      have hb := choose_pair_bound s (s.conduct_search 2 sh1 s.sep2).1 2 2 sh1 sh2
        s.sep2 ((s.conduct_search 2 sh1 s.sep2).1.sep2) hp1 hp2
      exact ⟨le_refl 0, zero_le_one, hb.1, hb.2, le_refl 0, zero_le_one⟩
    · unfold chooseThree
      dsimp only
      have hb := choose_pair_bound s (s.conduct_search 3 sh1 s.sep3).1 3 3 sh1 sh2
        s.sep3 ((s.conduct_search 3 sh1 s.sep3).1.sep3) hp1 hp2
      exact ⟨le_refl 0, zero_le_one, le_refl 0, zero_le_one, hb.1, hb.2⟩
  · intro s sh1 sh2 hs
    obtain ⟨h1a, h1b, h2a, h2b, h3a, h3b⟩ := hs
    refine ⟨?_, ?_, ?_⟩
    · unfold chooseFour
      dsimp only
      rw [conduct_search_fst, conduct_search_fst]
      exact ⟨h1a, h1b, h2a, h2b, le_refl 0, zero_le_one⟩
    · unfold chooseFive
      dsimp only
      rw [conduct_search_fst, conduct_search_fst]
      exact ⟨h1a, h1b, le_refl 0, zero_le_one, h3a, h3b⟩
    · unfold chooseSix
      dsimp only
      rw [conduct_search_fst, conduct_search_fst]
      exact ⟨le_refl 0, zero_le_one, h2a, h2b, h3a, h3b⟩
  · intro s s' hs hrev
    rw [Search.revise_target_probs] at hrev
    by_cases hden : s.denom = 0
    · rw [if_pos hden] at hrev
      exact absurd hrev (by simp)
    · rw [if_neg hden] at hrev
      have hs' := Option.some.inj hrev
      rw [← hs']
      exact hs

/-- C9 witness: concrete sampling inside [0.2, 0.9] lands in [0,1]. -/
theorem seps_unit_interval_witness :
    sepsIn01 (Search.init.calc_search_effectiveness (1/2) (1/2) (1/2)) :=
  seps_unit_interval.2.1 Search.init (1/2) (1/2) (1/2) (by norm_num)
    (by norm_num) (by norm_num) (by norm_num) (by norm_num) (by norm_num)

/-- C8: an invalid choice makes the dispatch return `invalidRetry` carrying
the game state exactly as it was when the choice was evaluated — priors,
effectiveness values and round counter all unmutated (the retried round's
own `calc_search_effectiveness` then belongs to the next round start); the
counter increments exactly once on a completed NotFound round (`continued`
or hurricane-`exhausted`) and never on an invalid-choice or Found round. -/
theorem round_counter_discipline (g : GameState) (choice : String)
    (sh1 sh2 : List Cell) :
    (choice ≠ "0" → choice ≠ "1" → choice ≠ "2" → choice ≠ "3" →
      choice ≠ "4" → choice ≠ "5" → choice ≠ "6" → choice ≠ "7" →
      dispatch g choice sh1 sh2 = .invalidRetry g) ∧
    (∀ g', dispatch g choice sh1 sh2 = .invalidRetry g' → g' = g) ∧
    (∀ g', dispatch g choice sh1 sh2 = .continued g' →
      g'.search_num = g.search_num + 1) ∧
    (∀ g', dispatch g choice sh1 sh2 = .exhausted g' →
      g'.search_num = g.search_num + 1) ∧
    (∀ g', dispatch g choice sh1 sh2 = .foundEnd g' →
      g'.search_num = g.search_num) := by
  refine ⟨?_, ?_, ?_, ?_, ?_⟩
  · intro h0 h1 h2 h3 h4 h5 h6 h7
    unfold dispatch runChoice
    rw [if_neg h0, if_neg h7, if_neg h1, if_neg h2, if_neg h3, if_neg h4,
      if_neg h5, if_neg h6]
  all_goals
    intro g' hstep
    unfold dispatch runChoice at hstep
    repeat' split at hstep
    all_goals cases hstep
    all_goals dsimp only

/-- C8 witness: a concrete invalid choice leaves a concrete state intact. -/
theorem round_counter_discipline_witness :
    dispatch ⟨Search.init, 0, 5⟩ "9" [] [] = .invalidRetry ⟨Search.init, 0, 5⟩ :=
  (round_counter_discipline ⟨Search.init, 0, 5⟩ "9" [] []).1 (by decide)
    (by decide) (by decide) (by decide) (by decide) (by decide) (by decide)
    (by decide)

/-- C5 amended: the game loop calls `revise_target_probs` after every valid
search round regardless of its outcome; a round in which a team found the
sailor ends the game with the counter unchanged and with the priors already
REVISED once more (not the round-start priors). -/
theorem found_ends_with_revised_priors (g : GameState) (e1 e2 e3 : ℚ)
    (choice : String) (sh1 sh2 : List Cell) (g' : GameState)
    (hstep : mainStep g e1 e2 e3 choice sh1 sh2 = .foundEnd g') :
    g'.search_num = g.search_num ∧
    ∃ r, runChoice (g.app.calc_search_effectiveness e1 e2 e3) choice sh1 sh2 =
        some r ∧
      r.1.revise_target_probs = some g'.app := by
  unfold mainStep dispatch at hstep
  repeat' split at hstep
  all_goals cases hstep
  all_goals
    rename_i x1 r hrc x2 app2 hrev hnf
    exact ⟨rfl, r, hrc, hrev⟩

theorem take1250_searched :
    searchedCells (gridCoords 50 50) (1/2) = (gridCoords 50 50).take 1250 := by
  rw [searchedCells_of_nonneg _ (by norm_num)]
  have h1 : ((gridCoords 50 50).length : ℚ) * (1/2) = ((1250 : ℤ) : ℚ) := by
    rw [gridCoords_length]; norm_num
  rw [h1, Int.floor_intCast]
  rfl

theorem conduct_search_found_concrete (x : Search) (hx : x.area_actual = 1)
    (hsail : x.sailor_actual = (0, 0)) :
    x.conduct_search 1 (gridCoords 50 50) (1/2) =
      (x, "Found in Area 1", (gridCoords 50 50).take 1250) := by
  have hmem : (0, 0) ∈ (gridCoords 50 50).take 1250 := by decide
  have hstr : ("Found in Area " ++ toString 1 : String) = "Found in Area 1" := by
    decide
  have hmem0 : (0 : Cell) ∈ (gridCoords 50 50).take 1250 := hmem
  simp only [Search.conduct_search, take1250_searched, hx, hsail]
  simp [hmem, hmem0, hstr]

/-- Concrete run of one loop iteration in which both teams find the sailor
in area 1: the step ends in `foundEnd` with the priors already revised from
`(0.2, 0.5, 0.3)` to `(1/9, 5/9, 1/3)` (the observed coverage of the two
identical passes is `1250/2500 = 1/2`, so `denom = 0.9`). -/
theorem mainStep_found_concrete :
    mainStep foundRoundStart (1/2) (1/2) (1/2) "1"
        (gridCoords 50 50) (gridCoords 50 50) =
      .foundEnd foundRoundEnd := by
  have hlen0 : ((gridCoords 50 50).take 1250).length = 1250 := by
    rw [List.length_take, gridCoords_length]
    omega
  have hnodup0 : ((gridCoords 50 50).take 1250).Nodup :=
    (List.take_sublist _ _).nodup (gridCoords_nodup 50 50)
  have hdedup :
      ((gridCoords 50 50).take 1250 ++ (gridCoords 50 50).take 1250).dedup.length =
        1250 := by
    rw [dedup_append_card, Finset.union_self,
      List.toFinset_card_of_nodup hnodup0, hlen0]
  simp only [foundRoundStart, foundRoundEnd, mainStep, dispatch, runChoice,
    Search.calc_search_effectiveness, Search.init, chooseOne,
    conduct_search_found_concrete, hdedup, saRowsSq_eq,
    Search.revise_target_probs, Search.denom]
  norm_num
  rw [if_neg (by decide), if_neg (by decide), if_neg (by decide)]

/-- C5 counterexample: a concrete Found round after which the game
terminates with priors `(1/9, 5/9, 1/3)` — NOT the round-start priors
`(0.2, 0.5, 0.3)`: `main` calls `revise_target_probs` before it tests the
round's outcome, so belief revision is applied even on a Found round. -/
theorem loop_revises_on_found_cex :
    foundPriors (mainStep foundRoundStart (1/2) (1/2) (1/2) "1"
        (gridCoords 50 50) (gridCoords 50 50)) = some (1/9, 5/9, 1/3) ∧
    ((1/9 : ℚ), (5/9 : ℚ), (1/3 : ℚ)) ≠
      (foundRoundStart.app.p1, foundRoundStart.app.p2, foundRoundStart.app.p3) := by
  constructor
  · rw [mainStep_found_concrete]
    rfl
  · simp only [foundRoundStart, Search.init, Prod.mk.injEq, ne_eq, not_and]
    intro h1
    norm_num at h1

/-- C5 amended witness: the amended statement applied at the concrete Found
round of `mainStep_found_concrete`. -/
theorem found_ends_with_revised_priors_witness :
    foundRoundEnd.search_num = foundRoundStart.search_num ∧
    ∃ r, runChoice (foundRoundStart.app.calc_search_effectiveness
          (1/2) (1/2) (1/2)) "1" (gridCoords 50 50) (gridCoords 50 50) =
        some r ∧
      r.1.revise_target_probs = some foundRoundEnd.app :=
  found_ends_with_revised_priors _ (1/2) (1/2) (1/2) "1" _ _ _
    mainStep_found_concrete

end ShipWreck
